import Mathlib

/-!
Shallow embedding of the ICS20-swap IBC pipeline
(`src/contracts/ics20-swap/src/ibc.rs` of lod12k/cw-osmo): channel
handshake, packet receive with embedded Osmosis actions, reply
continuations, acknowledgement/timeout settlement.  Helper modules of the
repository that are not in the sources (state.rs ledger primitives,
parse.rs decoders, error.rs messages, amount.rs, cw-utils reply parsers)
are modelled from the specification and marked as such.  Machine integers
(Uint128/u64) are modelled as `Nat`; amounts in the relevant scenarios are
far from overflow and no claim probes wrap-around.
-/

namespace CwOsmo

/-- IBC endpoint: a (port, channel) pair, as in cosmwasm-std. -/
structure IbcEndpoint where
  port_id : String
  channel_id : String
deriving DecidableEq, Repr

/-- Contract error kinds.  The constructors mirror the variants used by
`ibc.rs`.  Modelled from the spec: `error.rs` is not among the sources;
the spec (§7) enumerates the kinds, and only the kind (not the exact
display string) is relied upon by the claims. -/
inductive ContractError where
  | DecodeFail (msg : String)
  | NoForeignTokens
  | FromOtherPort (port : String)
  | FromOtherChannel (channel : String)
  | InsufficientFunds
  | NonPayable
  | OnlyLockupByChannel
  | LockupNotFound
  | NoReplyArgs
  | MissingReplyData
  | ParseReplyErr (msg : String)
  | GammParseErr (msg : String)
  | PoolDenomErr (denom : String)
  | UnknownReplyId (id : Nat)
  | InvalidIbcVersion (version : String)
  | OnlyOrderedChannel
  | CannotClose
deriving DecidableEq, Repr

/-- Modelled from the spec: human-readable message of each error kind
(`err.to_string()` in the source; `error.rs` display strings are not in
the sources).  The InsufficientFunds text follows the spec scenario
wording. -/
def ContractError.toMsg : ContractError → String
  | .DecodeFail m => "invalid binary: " ++ m
  | .NoForeignTokens => "no matching foreign asset encoding"
  | .FromOtherPort p => "voucher from wrong port: " ++ p
  | .FromOtherChannel c => "voucher from wrong channel: " ++ c
  | .InsufficientFunds => "insufficient funds"
  | .NonPayable => "this action does not accept funds"
  | .OnlyLockupByChannel => "lockup account already exists for this channel and sender"
  | .LockupNotFound => "no lockup account found"
  | .NoReplyArgs => "no reply args recorded"
  | .MissingReplyData => "missing reply data"
  | .ParseReplyErr m => "invalid reply data: " ++ m
  | .GammParseErr m => "cannot parse gamm result: " ++ m
  | .PoolDenomErr d => "denom is not a pool share: " ++ d
  | .UnknownReplyId i => "unknown reply id: " ++ toString i
  | .InvalidIbcVersion v => "only supports channel with ibc version ics20-1, got " ++ v
  | .OnlyOrderedChannel => "only supports unordered channels"
  | .CannotClose => "channel may not be closed"

/-- Escrowed amount, `Amount::Native(coin)` of `amount.rs`.  Modelled from
the spec: a (denom, amount) pair; only the native variant exists in this
pipeline. -/
structure Amount where
  denom : String
  amount : Nat
deriving DecidableEq, Repr

/-- Model of `Amount::from_parts`. -/
def Amount.from_parts (denom : String) (amount : Nat) : Amount := ⟨denom, amount⟩

/-- Modelled from the spec: `Amount::is_empty` (amount.rs is not among the
sources); an action "carries zero value" exactly when the amount is 0. -/
def Amount.is_empty (a : Amount) : Bool := a.amount == 0

/-- Model of `nonpayable` (ibc.rs): fail with NonPayable unless the transfer
carries zero value. -/
def nonpayable (amount : Amount) : Except ContractError Unit :=
  if amount.is_empty then .ok () else .error .NonPayable

/-- A swap route hop (`SwapAmountInRoute`). -/
structure SwapAmountInRoute where
  pool_id : Nat
  token_out_denom : String
deriving DecidableEq, Repr

/-- Embedded action payloads (`ibc_msg.rs`, fields as used by ibc.rs and
its tests). -/
structure SwapPacket where
  routes : List SwapAmountInRoute
  token_out_min_amount : Nat
deriving DecidableEq, Repr

structure JoinPoolPacket where
  pool_id : Nat
  share_out_min_amount : Nat
deriving DecidableEq, Repr

structure ExitPoolPacket where
  token_out_denom : String
  token_out_min_amount : Nat
deriving DecidableEq, Repr

structure LockPacket where
  duration : Nat
deriving DecidableEq, Repr

structure ClaimPacket where
  denom : String
deriving DecidableEq, Repr

structure UnlockPacket where
  id : Nat
deriving DecidableEq, Repr

/-- The closed set of embedded actions (`OsmoPacket`). -/
inductive OsmoPacket where
  | Swap (p : SwapPacket)
  | JoinPool (p : JoinPoolPacket)
  | ExitPool (p : ExitPoolPacket)
  | LockupAccount
  | Lock (p : LockPacket)
  | Claim (p : ClaimPacket)
  | Unlock (p : UnlockPacket)
deriving DecidableEq, Repr

/-- The ICS20 transfer envelope (`Ics20Packet`). -/
structure Ics20Packet where
  amount : Nat
  denom : String
  sender : String
  receiver : String
  action : Option OsmoPacket
deriving DecidableEq, Repr

/-- An IBC packet as seen by the receive handler.  The raw payload bytes
are modelled by their decoding: `none` stands for bytes that do not
decode as an `Ics20Packet` (`from_binary` failure). -/
structure IbcPacket where
  data : Option Ics20Packet
  src : IbcEndpoint
  dest : IbcEndpoint
deriving DecidableEq, Repr

/-- Result of stripping the voucher prefix (`Voucher` of ibc_msg.rs). -/
structure Voucher where
  denom : String
deriving DecidableEq, Repr

/-- Equality on `Except` values is decidable componentwise; the library
provides no instance. -/
instance instDecEqExcept {ε α : Type} [DecidableEq ε] [DecidableEq α] :
    DecidableEq (Except ε α) := fun a b =>
  match a, b with
  | .ok x, .ok y =>
    if h : x = y then .isTrue (by rw [h])
    else .isFalse (by intro hc; cases hc; exact h rfl)
  | .error x, .error y =>
    if h : x = y then .isTrue (by rw [h])
    else .isFalse (by intro hc; cases hc; exact h rfl)
  | .ok _, .error _ => .isFalse (by intro hc; cases hc)
  | .error _, .ok _ => .isFalse (by intro hc; cases hc)

/-- Split a character list at every '/' (the full split underlying both
Rust `split` and `splitn`). -/
def splitSlash : List Char → List (List Char)
  | [] => [[]]
  | c :: rest =>
    match splitSlash rest with
    | [] => [[]]
    | h :: t => if c = '/' then [] :: h :: t else (c :: h) :: t

/-- Re-join character-list parts with '/' separators. -/
def joinSlash : List (List Char) → List Char
  | [] => []
  | [x] => x
  | x :: xs => x ++ '/' :: joinSlash xs

/-- Split a string at every '/' (Rust `split('/')`, Lean
`String.splitOn "/"`, rendered structurally so terms evaluate inside the
kernel). -/
def splitAll (s : String) : List String :=
  (splitSlash s.data).map fun cs => ⟨cs⟩

/-- Rust `voucher_denom.splitn(3, '/')`: at most three parts, the third
keeps any further separators. -/
def splitn3 (s : String) : List String :=
  match splitSlash s.data with
  | a :: b :: c :: rest => [⟨a⟩, ⟨b⟩, ⟨joinSlash (c :: rest)⟩]
  | parts => parts.map fun cs => ⟨cs⟩

/-- Model of `parse_voucher` (ibc.rs): returns the local denom if the denom is an
encoded voucher from the expected endpoint, otherwise an error. -/
def parse_voucher (voucher_denom : String) (remote_endpoint : IbcEndpoint) :
    Except ContractError Voucher :=
  let split_denom := splitn3 voucher_denom
  if split_denom.length ≠ 3 then .error .NoForeignTokens
  else if split_denom.getD 0 "" ≠ remote_endpoint.port_id then
    .error (.FromOtherPort (split_denom.getD 0 ""))
  else if split_denom.getD 1 "" ≠ remote_endpoint.channel_id then
    .error (.FromOtherChannel (split_denom.getD 1 ""))
  else .ok ⟨split_denom.getD 2 ""⟩

/-- Key of the channel-balance ledger: (channel id, denom). -/
abbrev BalKey := String × String

/-- Point lookup in an association list of balances; an absent key reads
as zero escrow. -/
def getBal (bs : List (BalKey × Nat)) (k : BalKey) : Nat :=
  match bs.find? (fun e => decide (e.1 = k)) with
  | some e => e.2
  | none => 0

/-- Write-through update of the balance association list. -/
def setBal (bs : List (BalKey × Nat)) (k : BalKey) (v : Nat) : List (BalKey × Nat) :=
  match bs with
  | [] => [(k, v)]
  | e :: rest => if e.1 = k then (k, v) :: rest else e :: setBal rest k v

/-- Pending continuation context saved before every nested dispatch
(`ReplyArgs` of state.rs, fields as used by ibc.rs). -/
structure ReplyArgs where
  channel : String
  denom : String
  amount : Nat
  sender : String
deriving DecidableEq, Repr

/-- Channel metadata persisted at connect (`ChannelInfo`). -/
structure ChannelInfo where
  id : String
  counterparty_endpoint : IbcEndpoint
  connection_id : String
deriving DecidableEq, Repr

/-- Contract configuration: code id of the lockup sub-account contract. -/
structure Config where
  lockup_id : Nat
deriving DecidableEq, Repr

/-- The persistent contract storage: channel-balance ledger, the
single pending-continuation slot, the lockup binding table keyed by
(channel, sender), the channel registry, and the config. -/
structure State where
  balances : List (BalKey × Nat)
  replyArgs : Option ReplyArgs
  lockup : List ((String × String) × String)
  channels : List (String × ChannelInfo)
  config : Config
deriving DecidableEq, Repr

/-- Lookup in the lockup binding table (`LOCKUP.load` / `LOCKUP.has`). -/
def getLockup (tbl : List ((String × String) × String)) (k : String × String) :
    Option String :=
  (tbl.find? (fun e => decide (e.1 = k))).map (fun e => e.2)

/-- Write a lockup binding (`LOCKUP.save`). -/
def setLockup (tbl : List ((String × String) × String)) (k : String × String)
    (v : String) : List ((String × String) × String) :=
  match tbl with
  | [] => [(k, v)]
  | e :: rest => if e.1 = k then (k, v) :: rest else e :: setLockup rest k v

/-- Modelled from the spec: `increase_channel_balance` (state.rs is not
among the sources); `credit(channel, denom, amount)` adds to the stored
balance. -/
def increase_channel_balance (s : State) (channel denom : String) (amount : Nat) :
    State :=
  { s with balances :=
      setBal s.balances (channel, denom) (getBal s.balances (channel, denom) + amount) }

/-- Modelled from the spec: `reduce_channel_balance` (state.rs is not
among the sources); `debit` fails with InsufficientFunds if the stored
balance is less than the amount — a hard validation failure, not a ledger
mutation — and otherwise subtracts. -/
def reduce_channel_balance (s : State) (channel denom : String) (amount : Nat) :
    Except ContractError State :=
  if getBal s.balances (channel, denom) < amount then .error .InsufficientFunds
  else
    let bal := getBal s.balances (channel, denom)
    .ok { s with balances := setBal s.balances (channel, denom) (bal - amount) }

/-- Modelled from the spec: `restore_balance_reply` (state.rs is not among
the sources); loads the pending continuation — fatally failing when the
slot is empty — and credits back the debited (channel, denom, amount). -/
def restore_balance_reply (s : State) : Except ContractError State :=
  match s.replyArgs with
  | none => .error .NoReplyArgs
  | some ra => .ok (increase_channel_balance s ra.channel ra.denom ra.amount)

/-- Inner bytes of a nested-call execute response, modelled by what they
decode to: a bank coin (`from_binary::<Coin>` succeeds) or opaque bytes
(tagged, `from_binary::<Coin>` fails). -/
inductive InnerData where
  | coin (denom : String) (amount : Nat)
  | raw (tag : Nat)
deriving DecidableEq, Repr

/-- The `data` field of a nested-call response, modelled by its decoding:
a protobuf execute-response wrapper with optional inner data, an
instantiate response carrying the new contract address, or malformed
bytes. -/
inductive ReplyData where
  | execResult (inner : Option InnerData)
  | instResult (contract_address : String)
  | malformed
deriving DecidableEq, Repr

/-- Structured output of a resolved nested call (`SubMsgResponse`).
`gamm` models the event-based AMM result extraction of `parse.rs` (not
among the sources): `some` when the swap/join/exit events carry a
decodable (denom, amount) result, `none` otherwise.  `data` is the
optional response data payload. -/
structure SubMsgResponse where
  gamm : Option Amount
  data : Option ReplyData
deriving DecidableEq, Repr

/-- Outcome of a nested call (`SubMsgResult`). -/
inductive SubMsgResult where
  | ok (tx : SubMsgResponse)
  | err (msg : String)
deriving DecidableEq, Repr

/-- A host reply resuming a pending continuation (`Reply`). -/
structure Reply where
  id : Nat
  result : SubMsgResult
deriving DecidableEq, Repr

/-- Modelled from the spec: `parse_gamm_result` (parse.rs is not among the
sources); decodes a (denom, amount) result record from the structured output of the
nested call, failing recoverably when the output cannot be
parsed. -/
def parse_gamm_result (tx : SubMsgResponse) : Except ContractError Amount :=
  match tx.gamm with
  | some a => .ok a
  | none => .error (.GammParseErr "no gamm event found")

/-- Decimal digits to a number (`String.toNat?`, rendered structurally
so terms evaluate inside the kernel). -/
def digitsToNatAux : List Char → Nat → Option Nat
  | [], acc => some acc
  | c :: rest, acc =>
    if c.isDigit then digitsToNatAux rest (acc * 10 + (c.toNat - 48)) else none

/-- Parse a nonempty all-digit string as a number. -/
def digitsToNat? (cs : List Char) : Option Nat :=
  match cs with
  | [] => none
  | _ => digitsToNatAux cs 0

/-- Modelled from the spec: `parse_pool_id` (parse.rs is not among the
sources); the escrowed denomination must be the reserved pool-share
format gamm/pool/N encoding the source pool id. -/
def parse_pool_id (denom : String) : Except ContractError Nat :=
  match splitAll denom with
  | [a, b, n] =>
    if a = "gamm" ∧ b = "pool" then
      match digitsToNat? n.data with
      | some id => .ok id
      | none => .error (.PoolDenomErr denom)
    else .error (.PoolDenomErr denom)
  | _ => .error (.PoolDenomErr denom)

/-- Modelled from the spec: cw-utils `parse_reply_instantiate_data`
(external collaborator, interface only); extracts the address of the created
contract from an instantiate response. -/
def parse_reply_instantiate_data (tx : SubMsgResponse) : Except String String :=
  match tx.data with
  | some (ReplyData.instResult addr) => .ok addr
  | _ => .error "invalid instantiate reply data"

/-- Modelled from the spec: cw-utils `parse_execute_response_data`
(external collaborator, interface only); unwraps the protobuf execute
response, exposing its optional inner data. -/
def parse_execute_response_data (d : ReplyData) :
    Except ContractError (Option InnerData) :=
  match d with
  | .execResult inner => .ok inner
  | _ => .error (.ParseReplyErr "not an execute response")

/-- Payload of a success acknowledgement, modelled by its decoded shape:
the opaque marker bytes b"1", a {denom, amount} result record
(`AmountResultAck`), a {contract} record (`LockupAck`), or a raw
pass-through of nested-call data. -/
inductive AckData where
  | marker
  | amountResult (denom : String) (amount : Nat)
  | lockupAck (contract : String)
  | passthrough (d : InnerData)
deriving DecidableEq, Repr

/-- The two-variant acknowledgement envelope (`Ics20Ack`). -/
inductive Ics20Ack where
  | Result (data : AckData)
  | Error (msg : String)
deriving DecidableEq, Repr

/-- Model of `ack_success_with_body`. -/
def ack_success_with_body (data : AckData) : Ics20Ack := .Result data

/-- Model of `ack_success`: the optimistic marker acknowledgement. -/
def ack_success : Ics20Ack := .Result .marker

/-- Model of `ack_fail`. -/
def ack_fail (err : String) : Ics20Ack := .Error err

/-- Continuation identifiers (the reply id constants of ibc.rs). -/
def RECEIVE_ID : Nat := 1337
def SWAP_ID : Nat := 0xcb37
def JOIN_POOL_ID : Nat := 0xad54
def EXIT_POOL_ID : Nat := 0xfa61
def ACK_FAILURE_ID : Nat := 0xfa17
def LOCKUP_ID : Nat := 0xdf16
def LOCK_TOKEN_ID : Nat := 0xbc42
def CLAIM_TOKEN_ID : Nat := 0x1654
def UNLOCK_TOKEN_ID : Nat := 0x6f11

/-- Notification policy of a nested call: `SubMsg::reply_always` vs
`SubMsg::reply_on_error`. -/
inductive ReplyOn where
  | always
  | onError
deriving DecidableEq, Repr

/-- Lockup sub-account execute messages (`LockupExecuteMsg`). -/
inductive LockupExecuteMsg where
  | lock (duration : Nat)
  | claim (denom : String)
  | unlock (id : Nat)
deriving DecidableEq, Repr

/-- The nested-call requests this pipeline can issue (`CosmosMsg` as
built by ibc.rs): a bank payout, a lockup sub-account execute with funds,
a lockup sub-account instantiate, or one of the three AMM stargate
requests. -/
inductive CosmosMsgM where
  | bankSend (to_address : String) (denom : String) (amount : Nat)
  | wasmExec (contract_addr : String) (msg : LockupExecuteMsg)
      (funds : List (Nat × String))
  | wasmInstantiate (code_id : Nat) (admin : String) (label : String)
  | stargateSwap (sender : String) (token_in_denom : String)
      (token_in_amount : Nat) (routes : List SwapAmountInRoute) (min_out : Nat)
  | stargateJoin (sender : String) (token_in_denom : String)
      (token_in_amount : Nat) (pool_id : Nat) (min_share_out : Nat)
  | stargateExit (sender : String) (pool_id : Nat) (token_out_denom : String)
      (share_in : Nat) (min_out : Nat)
deriving DecidableEq, Repr

/-- A dispatched nested call with its continuation id and policy
(`SubMsg`). -/
structure SubMsgM where
  id : Nat
  reply_on : ReplyOn
  msg : CosmosMsgM
deriving DecidableEq, Repr

/-- Model of `SubMsg::reply_always`. -/
def SubMsgM.reply_always (msg : CosmosMsgM) (id : Nat) : SubMsgM :=
  ⟨id, .always, msg⟩

/-- Model of `SubMsg::reply_on_error`. -/
def SubMsgM.reply_on_error (msg : CosmosMsgM) (id : Nat) : SubMsgM :=
  ⟨id, .onError, msg⟩

/-- Model of `send_amount`: a direct bank payout of a native coin. -/
def send_amount (amount : Amount) (recipient : String) : CosmosMsgM :=
  .bankSend recipient amount.denom amount.amount

/-- Model of `create_lockup_msg`: an execute request on the lockup sub-account. -/
def create_lockup_msg (contract_addr : String) (msg : LockupExecuteMsg)
    (funds : List (Nat × String)) : CosmosMsgM :=
  .wasmExec contract_addr msg funds

/-- The response of the packet-receive entry point
(`IbcReceiveResponse`): acknowledgement bytes (modelled decoded), issued
nested calls, and event attributes. -/
structure IbcReceiveResponse where
  ack : Option Ics20Ack
  messages : List SubMsgM
  attributes : List (String × String)
deriving DecidableEq, Repr

/-- The response of a reply invocation (`Response` with `set_data`):
rewritten acknowledgement bytes, when any. -/
structure ReplyResponse where
  data : Option Ics20Ack
deriving DecidableEq, Repr

/-- The response of ack/timeout/connect invocations
(`IbcBasicResponse`). -/
structure IbcBasicResponse where
  messages : List SubMsgM
  attributes : List (String × String)
deriving DecidableEq, Repr

/-- Invocation environment: the own address of this contract. -/
structure Env where
  contract_address : String
deriving DecidableEq, Repr

/-- Model of `swap_receive`: build the multi-hop swap request and dispatch it
under the swap continuation id, acknowledging optimistically. -/
def swap_receive (swap : SwapPacket) (sender : String) (token_in : Amount)
    (contract : String) : Except ContractError IbcReceiveResponse :=
  let tx := CosmosMsgM.stargateSwap contract token_in.denom token_in.amount
    swap.routes swap.token_out_min_amount
  let submsg := SubMsgM.reply_always tx SWAP_ID
  .ok { ack := some ack_success
        messages := [submsg]
        attributes := [("action", "receive_swap"), ("sender", sender),
          ("denom", token_in.denom), ("amount", toString token_in.amount),
          ("success", "true")] }

/-- Model of `receive_join_pool`: build the single-sided deposit request and
dispatch it under the join-pool continuation id. -/
def receive_join_pool (join_pool : JoinPoolPacket) (sender : String)
    (token_in : Amount) (contract : String) :
    Except ContractError IbcReceiveResponse :=
  let tx := CosmosMsgM.stargateJoin contract token_in.denom token_in.amount
    join_pool.pool_id join_pool.share_out_min_amount
  let submsg := SubMsgM.reply_always tx JOIN_POOL_ID
  .ok { ack := some ack_success
        messages := [submsg]
        attributes := [("action", "receive_join_pool"), ("sender", sender),
          ("denom", token_in.denom), ("amount", toString token_in.amount),
          ("success", "true")] }

/-- Model of `receive_exit_pool`: the escrowed denom must encode the pool id;
build the withdrawal request and dispatch it under the exit-pool
continuation id. -/
def receive_exit_pool (exit_pool : ExitPoolPacket) (sender : String)
    (token_in : Amount) (contract : String) :
    Except ContractError IbcReceiveResponse :=
  match parse_pool_id token_in.denom with
  | .error e => .error e
  | .ok pool_id =>
    let tx := CosmosMsgM.stargateExit contract pool_id exit_pool.token_out_denom
      token_in.amount exit_pool.token_out_min_amount
    let submsg := SubMsgM.reply_always tx EXIT_POOL_ID
    .ok { ack := some ack_success
          messages := [submsg]
          attributes := [("action", "receive_exit_pool"), ("sender", sender),
            ("denom", token_in.denom), ("amount", toString token_in.amount),
            ("success", "true")] }

/-- Model of `receive_create_lockup`: reject a duplicate (channel, sender) binding
before issuing any nested call; otherwise dispatch the sub-account
instantiation under the lockup-create continuation id. -/
def receive_create_lockup (s : State) (channel : String) (sender : String)
    (contract : String) : Except ContractError IbcReceiveResponse :=
  if (getLockup s.lockup (channel, sender)).isSome then
    .error .OnlyLockupByChannel
  else
    let init_msg := CosmosMsgM.wasmInstantiate s.config.lockup_id contract
      ("Lockup " ++ channel)
    let submsg := SubMsgM.reply_always init_msg LOCKUP_ID
    .ok { ack := some ack_success
          messages := [submsg]
          attributes := [("action", "receive_lockup_account"),
            ("success", "true")] }

/-- Model of `receive_lock_tokens`: require an existing binding, then forward the
escrowed funds plus the duration to the bound sub-account under the
lock-token continuation id. -/
def receive_lock_tokens (s : State) (channel : String) (lock : LockPacket)
    (sender : String) (token_in : Amount) :
    Except ContractError IbcReceiveResponse :=
  match getLockup s.lockup (channel, sender) with
  | none => .error .LockupNotFound
  | some lockup_contract =>
    let exec_msg := create_lockup_msg lockup_contract (.lock lock.duration)
      [(token_in.amount, token_in.denom)]
    let submsg := SubMsgM.reply_always exec_msg LOCK_TOKEN_ID
    .ok { ack := some ack_success
          messages := [submsg]
          attributes := [("action", "receive_lock_tokens"), ("sender", sender),
            ("denom", token_in.denom), ("amount", toString token_in.amount),
            ("success", "true")] }

/-- Model of `receive_claim_tokens`: require an existing binding, then forward the
claim-by-denom request under the claim-token continuation id. -/
def receive_claim_tokens (s : State) (channel : String) (claim : ClaimPacket)
    (sender : String) : Except ContractError IbcReceiveResponse :=
  match getLockup s.lockup (channel, sender) with
  | none => .error .LockupNotFound
  | some lockup_contract =>
    let exec_msg := create_lockup_msg lockup_contract (.claim claim.denom) []
    let submsg := SubMsgM.reply_always exec_msg CLAIM_TOKEN_ID
    .ok { ack := some ack_success
          messages := [submsg]
          attributes := [("action", "receive_claim_tokens"), ("sender", sender),
            ("success", "true")] }

/-- Model of `receive_unlock_tokens`: require an existing binding, then forward
the unlock-by-id request, notified on failure only. -/
def receive_unlock_tokens (s : State) (channel : String) (unlock : UnlockPacket)
    (sender : String) : Except ContractError IbcReceiveResponse :=
  match getLockup s.lockup (channel, sender) with
  | none => .error .LockupNotFound
  | some lockup_contract =>
    let exec_msg := create_lockup_msg lockup_contract (.unlock unlock.id) []
    let submsg := SubMsgM.reply_on_error exec_msg UNLOCK_TOKEN_ID
    .ok { ack := some ack_success
          messages := [submsg]
          attributes := [("action", "receive_unlock"), ("sender", sender),
            ("success", "true")] }

/-- Model of `do_ibc_packet_receive`: decode the envelope, validate the voucher,
debit the escrow, save the pending continuation, then either issue the
plain payout or dispatch the embedded action.  Storage writes through
`DepsMut` take effect as they happen, so the (possibly mutated) state is
returned alongside the outcome even when a later step fails. -/
def do_ibc_packet_receive (s : State) (env : Env) (packet : IbcPacket) :
    State × Except ContractError IbcReceiveResponse :=
  match packet.data with
  | none => (s, .error (.DecodeFail "invalid ics20 packet"))
  | some msg =>
    let channel := packet.dest.channel_id
    match parse_voucher msg.denom packet.src with
    | .error e => (s, .error e)
    | .ok voucher =>
      let denom := voucher.denom
      match reduce_channel_balance s channel denom msg.amount with
      | .error e => (s, .error e)
      | .ok s1 =>
        let reply_args : ReplyArgs :=
          ⟨channel, denom, msg.amount, msg.sender⟩
        let s2 := { s1 with replyArgs := some reply_args }
        let to_send := Amount.from_parts denom msg.amount
        match msg.action with
        | some action =>
          let contract := env.contract_address
          match action with
          | .Swap swap => (s2, swap_receive swap msg.sender to_send contract)
          | .JoinPool join_pool =>
            (s2, receive_join_pool join_pool msg.sender to_send contract)
          | .ExitPool exit_pool =>
            (s2, receive_exit_pool exit_pool msg.sender to_send contract)
          | .LockupAccount =>
            match nonpayable to_send with
            | .error e => (s2, .error e)
            | .ok _ => (s2, receive_create_lockup s2 channel msg.sender contract)
          | .Lock lock =>
            (s2, receive_lock_tokens s2 channel lock msg.sender to_send)
          | .Claim claim =>
            match nonpayable to_send with
            | .error e => (s2, .error e)
            | .ok _ => (s2, receive_claim_tokens s2 channel claim msg.sender)
          | .Unlock unlock =>
            match nonpayable to_send with
            | .error e => (s2, .error e)
            | .ok _ => (s2, receive_unlock_tokens s2 channel unlock msg.sender)
        | none =>
          let send := send_amount to_send msg.receiver
          let submsg := SubMsgM.reply_on_error send RECEIVE_ID
          (s2, .ok { ack := some ack_success
                     messages := [submsg]
                     attributes := [("action", "receive"), ("sender", msg.sender),
                       ("receiver", msg.receiver), ("denom", denom),
                       ("amount", toString msg.amount), ("success", "true")] })

/-- Model of `ibc_packet_receive`: total entry point — any failure arising in
`do_ibc_packet_receive` is caught and converted into an `Error`
acknowledgement carrying the failure message (`Result<_, Never>` in the
source: the invocation itself always reports success). -/
def ibc_packet_receive (s : State) (env : Env) (packet : IbcPacket) :
    State × IbcReceiveResponse :=
  match do_ibc_packet_receive s env packet with
  | (s1, .ok res) => (s1, res)
  | (s1, .error err) =>
    (s1, { ack := some (ack_fail err.toMsg)
           messages := []
           attributes := [("action", "receive"), ("success", "false"),
             ("error", err.toMsg)] })

/-- Model of `reply_gamm_result` (the shared body of the swap / join-pool /
exit-pool continuations; the Rust type parameter and event/attribute
names only select the decoding, which is modelled inside
`parse_gamm_result`): on success decode the AMM output, credit the
ledger for it under the saved channel, and finalize a `Result` ack; on
an unparseable output or a failure outcome, restore the escrow debit and
finalize an `Error` ack. -/
def reply_gamm_result (s : State) (reply : Reply) :
    Except ContractError (State × ReplyResponse) :=
  match reply.result with
  | .ok tx =>
    match parse_gamm_result tx with
    | .ok ack =>
      match s.replyArgs with
      | none => .error .NoReplyArgs
      | some reply_args =>
        let s1 := increase_channel_balance s reply_args.channel ack.denom ack.amount
        .ok (s1, ⟨some (ack_success_with_body (.amountResult ack.denom ack.amount))⟩)
    | .error err =>
      match restore_balance_reply s with
      | .error e => .error e
      | .ok s1 => .ok (s1, ⟨some (ack_fail err.toMsg)⟩)
  | .err err =>
    match restore_balance_reply s with
    | .error e => .error e
    | .ok s1 => .ok (s1, ⟨some (ack_fail err)⟩)

/-- Model of `reply_lockup_account`: on success extract the address of the created
sub-account, persist the (channel, sender) binding and finalize a `Result`
ack; a parse failure is recoverable (`Error` ack, no ledger change); a
failure outcome finalizes an `Error` ack. -/
def reply_lockup_account (s : State) (reply : Reply) :
    Except ContractError (State × ReplyResponse) :=
  match reply.result with
  | .ok tx =>
    match parse_reply_instantiate_data tx with
    | .ok contract_address =>
      match s.replyArgs with
      | none => .error .NoReplyArgs
      | some reply_args =>
        let tbl := setLockup s.lockup (reply_args.channel, reply_args.sender)
          contract_address
        let s1 := { s with lockup := tbl }
        .ok (s1, ⟨some (ack_success_with_body (.lockupAck contract_address))⟩)
    | .error err => .ok (s, ⟨some (ack_fail err)⟩)
  | .err err => .ok (s, ⟨some (ack_fail err)⟩)

/-- Model of `reply_claim_result`: on success the response data must be present
and decode as a coin — missing data or a non-coin payload aborts the
invocation fatally — then the ledger is credited for it and a `Result`
ack finalized; on a failure outcome, restore escrow and finalize an
`Error` ack. -/
def reply_claim_result (s : State) (reply : Reply) :
    Except ContractError (State × ReplyResponse) :=
  match reply.result with
  | .ok tx =>
    match tx.data with
    | none => .error .MissingReplyData
    | some d =>
      match parse_execute_response_data d with
      | .error e => .error e
      | .ok none => .error .MissingReplyData
      | .ok (some inner) =>
        match inner with
        | .raw _ => .error (.DecodeFail "expected coin in claim reply data")
        | .coin denom amount =>
          match s.replyArgs with
          | none => .error .NoReplyArgs
          | some reply_args =>
            let s1 := increase_channel_balance s reply_args.channel denom amount
            .ok (s1, ⟨some (ack_success_with_body (.amountResult denom amount))⟩)
  | .err err =>
    match restore_balance_reply s with
    | .error e => .error e
    | .ok s1 => .ok (s1, ⟨some (ack_fail err)⟩)

/-- Model of `reply_ack_from_data` (lock-token continuation): on success the
response data must be present — missing data aborts fatally — and is
re-wrapped as a success ack pass-through; on a failure outcome, restore
escrow and finalize an `Error` ack. -/
def reply_ack_from_data (s : State) (reply : Reply) :
    Except ContractError (State × ReplyResponse) :=
  match reply.result with
  | .ok tx =>
    match tx.data with
    | none => .error .MissingReplyData
    | some d =>
      match parse_execute_response_data d with
      | .error e => .error e
      | .ok none => .error .MissingReplyData
      | .ok (some inner) =>
        .ok (s, ⟨some (ack_success_with_body (.passthrough inner))⟩)
  | .err err =>
    match restore_balance_reply s with
    | .error e => .error e
    | .ok s1 => .ok (s1, ⟨some (ack_fail err)⟩)

/-- Model of `reply_ack_on_error` (unlock-token and failure-settlement-payout
continuations): on success do nothing; on failure only overwrite the
acknowledgement data with an `Error` — it never touches storage. -/
def reply_ack_on_error (reply : Reply) : Except ContractError ReplyResponse :=
  match reply.result with
  | .ok _ => .ok ⟨none⟩
  | .err err => .ok ⟨some (ack_fail err)⟩

/-- Model of `reply_receive` (plain-receive continuation): on success do nothing;
on failure restore the escrow debit and overwrite the acknowledgement
data with an `Error`. -/
def reply_receive (s : State) (reply : Reply) :
    Except ContractError (State × ReplyResponse) :=
  match reply.result with
  | .ok _ => .ok (s, ⟨none⟩)
  | .err err =>
    match restore_balance_reply s with
    | .error e => .error e
    | .ok s1 => .ok (s1, ⟨some (ack_fail err)⟩)

/-- Model of `reply`: the continuation dispatch table keyed by reply id; an
unknown id is a fatal configuration error. -/
def reply (s : State) (r : Reply) : Except ContractError (State × ReplyResponse) :=
  if r.id = RECEIVE_ID then reply_receive s r
  else if r.id = SWAP_ID then reply_gamm_result s r
  else if r.id = JOIN_POOL_ID then reply_gamm_result s r
  else if r.id = EXIT_POOL_ID then reply_gamm_result s r
  else if r.id = LOCKUP_ID then reply_lockup_account s r
  else if r.id = LOCK_TOKEN_ID then reply_ack_from_data s r
  else if r.id = CLAIM_TOKEN_ID then reply_claim_result s r
  else if r.id = UNLOCK_TOKEN_ID then (reply_ack_on_error r).map (fun resp => (s, resp))
  else if r.id = ACK_FAILURE_ID then (reply_ack_on_error r).map (fun resp => (s, resp))
  else .error (.UnknownReplyId r.id)

/-- A received remote acknowledgement: the ack bytes (modelled decoded,
`none` for undecodable bytes) and the original outbound packet. -/
structure IbcPacketAckMsg where
  acknowledgement : Option Ics20Ack
  original_packet : IbcPacket
deriving DecidableEq, Repr

/-- Model of `on_packet_success`: the remote confirmed; emit the success event,
no state change. -/
def on_packet_success (packet : IbcPacket) :
    Except ContractError IbcBasicResponse :=
  match packet.data with
  | none => .error (.DecodeFail "invalid ics20 packet")
  | some msg =>
    .ok { messages := []
          attributes := [("action", "acknowledge"), ("sender", msg.sender),
            ("receiver", msg.receiver), ("denom", msg.denom),
            ("amount", toString msg.amount), ("success", "true")] }

/-- Model of `on_packet_failure`: the shared failure-settlement path of
acknowledged errors and timeouts — adjust the balance of the original
sent (channel, denom), reissue the funds to the original sender under
the failure-settlement-payout continuation id, and emit a failure event
carrying the error string. -/
def on_packet_failure (s : State) (packet : IbcPacket) (err : String) :
    Except ContractError (State × IbcBasicResponse) :=
  match packet.data with
  | none => .error (.DecodeFail "invalid ics20 packet")
  | some msg =>
    match reduce_channel_balance s packet.src.channel_id msg.denom msg.amount with
    | .error e => .error e
    | .ok s1 =>
      let to_send := Amount.from_parts msg.denom msg.amount
      let send := send_amount to_send msg.sender
      let submsg := SubMsgM.reply_on_error send ACK_FAILURE_ID
      .ok (s1, { messages := [submsg]
                 attributes := [("action", "acknowledge"), ("sender", msg.sender),
                   ("receiver", msg.receiver), ("denom", msg.denom),
                   ("amount", toString msg.amount), ("success", "false"),
                   ("error", err)] })

/-- Model of `ibc_packet_ack`: decode the returned acknowledgement; a `Result`
settles as success, an `Error` flows into the failure-settlement path. -/
def ibc_packet_ack (s : State) (msg : IbcPacketAckMsg) :
    Except ContractError (State × IbcBasicResponse) :=
  match msg.acknowledgement with
  | none => .error (.DecodeFail "invalid ics20 ack")
  | some (.Result _) => (on_packet_success msg.original_packet).map (fun r => (s, r))
  | some (.Error err) => on_packet_failure s msg.original_packet err

/-- Model of `ibc_packet_timeout`: return funds to the original sender — the same
as an acknowledged failure, with the literal reason string "timeout". -/
def ibc_packet_timeout (s : State) (packet : IbcPacket) :
    Except ContractError (State × IbcBasicResponse) :=
  on_packet_failure s packet "timeout"

/-- Required protocol version of the transfer channel. -/
def ICS20_VERSION : String := "ics20-1"

/-- Channel ordering (cosmwasm `IbcOrder`). -/
inductive IbcOrder where
  | ordered
  | unordered
deriving DecidableEq, Repr

/-- Required channel ordering (`ICS20_ORDERING = IbcOrder::Unordered`). -/
def ICS20_ORDERING : IbcOrder := .unordered

/-- An IBC channel as presented to the handshake handlers. -/
structure IbcChannel where
  endpoint : IbcEndpoint
  counterparty_endpoint : IbcEndpoint
  order : IbcOrder
  version : String
  connection_id : String
deriving DecidableEq, Repr

/-- Model of `enforce_order_and_version`: reject unless the version (and the
counterparty version when supplied) equals ics20-1 and the ordering is
unordered. -/
def enforce_order_and_version (channel : IbcChannel)
    (counterparty_version : Option String) : Except ContractError Unit :=
  if channel.version ≠ ICS20_VERSION then
    .error (.InvalidIbcVersion channel.version)
  else
    match counterparty_version with
    | some version =>
      if version ≠ ICS20_VERSION then .error (.InvalidIbcVersion version)
      else if channel.order ≠ ICS20_ORDERING then .error .OnlyOrderedChannel
      else .ok ()
    | none =>
      if channel.order ≠ ICS20_ORDERING then .error .OnlyOrderedChannel
      else .ok ()

/-- Model of `ibc_channel_open`: the handshake guard alone. -/
def ibc_channel_open (channel : IbcChannel)
    (counterparty_version : Option String) : Except ContractError Unit :=
  enforce_order_and_version channel counterparty_version

/-- Write a channel-registry entry (`CHANNEL_INFO.save`). -/
def setChannelInfo (tbl : List (String × ChannelInfo)) (k : String)
    (v : ChannelInfo) : List (String × ChannelInfo) :=
  match tbl with
  | [] => [(k, v)]
  | e :: rest => if e.1 = k then (k, v) :: rest else e :: setChannelInfo rest k v

/-- Model of `ibc_channel_connect`: run the handshake guard, then persist the
channel metadata (id, counterparty endpoint, connection id) keyed by
channel id. -/
def ibc_channel_connect (s : State) (channel : IbcChannel)
    (counterparty_version : Option String) :
    Except ContractError (State × IbcBasicResponse) :=
  match enforce_order_and_version channel counterparty_version with
  | .error e => .error e
  | .ok _ =>
    let info : ChannelInfo :=
      ⟨channel.endpoint.channel_id, channel.counterparty_endpoint,
        channel.connection_id⟩
    .ok ({ s with channels := setChannelInfo s.channels info.id info },
         { messages := [], attributes := [] })

/-- A channel-close message: remote-initiated confirmation or
local-initiated request. -/
inductive IbcChannelCloseMsg where
  | closeConfirm (channel : IbcChannel)
  | closeInit (channel : IbcChannel)
deriving DecidableEq, Repr

/-- Model of `ibc_channel_close`: accept a remote-initiated close confirmation;
reject a local-initiated close request. -/
def ibc_channel_close (msg : IbcChannelCloseMsg) :
    Except ContractError IbcBasicResponse :=
  match msg with
  | .closeConfirm _ => .ok { messages := [], attributes := [] }
  | .closeInit _ => .error .CannotClose

theorem getBal_setBal_self (bs : List (BalKey × Nat)) (k : BalKey) (v : Nat) :
    getBal (setBal bs k v) k = v := by
  induction bs with
  | nil => simp [setBal, getBal]
  | cons e rest ih =>
    by_cases h : e.1 = k
    · simp [setBal, h, getBal]
    · simpa [setBal, h, getBal] using ih

theorem getBal_increase (s : State) (ch d : String) (a : Nat) :
    getBal (increase_channel_balance s ch d a).balances (ch, d) =
      getBal s.balances (ch, d) + a := by
  simp [increase_channel_balance, getBal_setBal_self]

theorem swap_receive_ok_ack {sw : SwapPacket} {sn : String} {t : Amount}
    {c : String} {r : IbcReceiveResponse} (h : swap_receive sw sn t c = .ok r) :
    r.ack = some ack_success := by
  simp only [swap_receive, Except.ok.injEq] at h
  subst h; rfl

theorem receive_join_pool_ok_ack {jp : JoinPoolPacket} {sn : String}
    {t : Amount} {c : String} {r : IbcReceiveResponse}
    (h : receive_join_pool jp sn t c = .ok r) : r.ack = some ack_success := by
  simp only [receive_join_pool, Except.ok.injEq] at h
  subst h; rfl

theorem receive_exit_pool_ok_ack {ep : ExitPoolPacket} {sn : String}
    {t : Amount} {c : String} {r : IbcReceiveResponse}
    (h : receive_exit_pool ep sn t c = .ok r) : r.ack = some ack_success := by
  unfold receive_exit_pool at h
  split at h
  · simp at h
  · simp only [Except.ok.injEq] at h
    subst h; rfl

theorem receive_create_lockup_ok_ack {s : State} {ch sn c : String}
    {r : IbcReceiveResponse} (h : receive_create_lockup s ch sn c = .ok r) :
    r.ack = some ack_success := by
  unfold receive_create_lockup at h
  split at h
  · simp at h
  · simp only [Except.ok.injEq] at h
    subst h; rfl

theorem receive_lock_tokens_ok_ack {s : State} {ch : String} {lk : LockPacket}
    {sn : String} {t : Amount} {r : IbcReceiveResponse}
    (h : receive_lock_tokens s ch lk sn t = .ok r) : r.ack = some ack_success := by
  unfold receive_lock_tokens at h
  split at h
  · simp at h
  · simp only [Except.ok.injEq] at h
    subst h; rfl

theorem receive_claim_tokens_ok_ack {s : State} {ch : String}
    {cl : ClaimPacket} {sn : String} {r : IbcReceiveResponse}
    (h : receive_claim_tokens s ch cl sn = .ok r) : r.ack = some ack_success := by
  unfold receive_claim_tokens at h
  split at h
  · simp at h
  · simp only [Except.ok.injEq] at h
    subst h; rfl

theorem receive_unlock_tokens_ok_ack {s : State} {ch : String}
    {ul : UnlockPacket} {sn : String} {r : IbcReceiveResponse}
    (h : receive_unlock_tokens s ch ul sn = .ok r) : r.ack = some ack_success := by
  unfold receive_unlock_tokens at h
  split at h
  · simp at h
  · simp only [Except.ok.injEq] at h
    subst h; rfl

/-- Every success branch of the receive worker acknowledges with the
optimistic success marker. -/
theorem do_receive_ok_ack {s : State} {env : Env} {p : IbcPacket} {s1 : State}
    {r : IbcReceiveResponse} (h : do_ibc_packet_receive s env p = (s1, .ok r)) :
    r.ack = some ack_success := by
  rcases p with ⟨data, src, dest⟩
  cases data with
  | none => simp [do_ibc_packet_receive] at h
  | some msg =>
    rcases hv : parse_voucher msg.denom src with e | v
    · simp [do_ibc_packet_receive, hv] at h
    · rcases hr : reduce_channel_balance s dest.channel_id v.denom msg.amount
        with e | s2
      · simp [do_ibc_packet_receive, hv, hr] at h
      · rcases hact : msg.action with _ | act
        · simp only [do_ibc_packet_receive, hv, hr, hact] at h
          have h2 := congrArg Prod.snd h
          simp only [Except.ok.injEq] at h2
          rw [← h2]
        · cases act with
          | Swap sw =>
            simp only [do_ibc_packet_receive, hv, hr, hact] at h
            exact swap_receive_ok_ack (congrArg Prod.snd h)
          | JoinPool jp =>
            simp only [do_ibc_packet_receive, hv, hr, hact] at h
            exact receive_join_pool_ok_ack (congrArg Prod.snd h)
          | ExitPool ep =>
            simp only [do_ibc_packet_receive, hv, hr, hact] at h
            exact receive_exit_pool_ok_ack (congrArg Prod.snd h)
          | LockupAccount =>
            rcases hnp : nonpayable (Amount.from_parts v.denom msg.amount)
              with e | u
            · simp [do_ibc_packet_receive, hv, hr, hact, hnp] at h
            · simp only [do_ibc_packet_receive, hv, hr, hact, hnp] at h
              exact receive_create_lockup_ok_ack (congrArg Prod.snd h)
          | Lock lk =>
            simp only [do_ibc_packet_receive, hv, hr, hact] at h
            exact receive_lock_tokens_ok_ack (congrArg Prod.snd h)
          | Claim cl =>
            rcases hnp : nonpayable (Amount.from_parts v.denom msg.amount)
              with e | u
            · simp [do_ibc_packet_receive, hv, hr, hact, hnp] at h
            · simp only [do_ibc_packet_receive, hv, hr, hact, hnp] at h
              exact receive_claim_tokens_ok_ack (congrArg Prod.snd h)
          | Unlock ul =>
            rcases hnp : nonpayable (Amount.from_parts v.denom msg.amount)
              with e | u
            · simp [do_ibc_packet_receive, hv, hr, hact, hnp] at h
            · simp only [do_ibc_packet_receive, hv, hr, hact, hnp] at h
              exact receive_unlock_tokens_ok_ack (congrArg Prod.snd h)

/-- C1: every packet-receive invocation, regardless of input validity,
returns successfully with a well-formed acknowledgement — the optimistic
success marker when the worker succeeds, and otherwise an `Error`
acknowledgement carrying the message of the error caught at the top of
the receive handler; never an unhandled fault (the entry point is a
total function). -/
theorem receive_always_acknowledges (s : State) (env : Env) (p : IbcPacket) :
    (ibc_packet_receive s env p).2.ack =
      some (match (do_ibc_packet_receive s env p).2 with
            | .ok _ => ack_success
            | .error e => ack_fail e.toMsg) := by
  unfold ibc_packet_receive
  rcases hdo : do_ibc_packet_receive s env p with ⟨s1, res⟩
  cases res with
  | ok r =>
    simpa using do_receive_ok_ack hdo
  | error e =>
    simp

theorem string_data_mk (cs : List Char) : String.data ⟨cs⟩ = cs := rfl

theorem map_data_map_mk (l : List (List Char)) :
    List.map String.data (List.map (fun cs => (⟨cs⟩ : String)) l) = l := by
  induction l with
  | nil => rfl
  | cons x xs ih => simp only [List.map_cons, string_data_mk, ih]

theorem splitSlash_ne_nil (cs : List Char) : splitSlash cs ≠ [] := by
  cases cs with
  | nil => simp [splitSlash]
  | cons c rest =>
    unfold splitSlash
    split
    · simp
    · split <;> simp

/-- C3 counterexample: a denomination with four '/'-separated components
is accepted by the parser (the third `splitn` part keeps the extra
separator) although the claim demands a no-matching-foreign-asset
failure whenever the split does not yield exactly three parts. -/
theorem parse_voucher_extra_parts_accepted :
    (splitAll "p/c/a/b").length = 4 ∧
      parse_voucher "p/c/a/b" ⟨"p", "c"⟩ = .ok ⟨"a/b"⟩ := by
  constructor
  · decide
  · decide

/-- C3 (amended): the parser splits with `splitn(3, '/')`, so fewer than
three '/'-separated components fail with the no-matching-foreign-asset
error, while three or more succeed past the arity check: part 0 must
equal the source port (else wrong-port), part 1 the source channel (else
wrong-channel), and everything after the second separator — possibly
containing further separators — is the resolved local denomination. -/
theorem parse_voucher_characterization (d : String) (ep : IbcEndpoint) :
    ((splitAll d).length < 3 → parse_voucher d ep = .error .NoForeignTokens) ∧
    (∀ a b rest, splitAll d = a :: b :: rest → rest ≠ [] →
      parse_voucher d ep =
        if a ≠ ep.port_id then .error (.FromOtherPort a)
        else if b ≠ ep.channel_id then .error (.FromOtherChannel b)
        else .ok ⟨⟨joinSlash (rest.map String.data)⟩⟩) := by
  constructor
  · intro hlen
    unfold splitAll at hlen
    unfold parse_voucher splitn3
    rcases hs : splitSlash d.data with _ | ⟨a, tl⟩
    · exact absurd hs (splitSlash_ne_nil d.data)
    · rcases tl with _ | ⟨b, tl2⟩
      · simp
      · rcases tl2 with _ | ⟨c, tl3⟩
        · simp
        · rw [hs] at hlen
          simp at hlen
          omega
  · intro a b rest hsplit hne
    unfold splitAll at hsplit
    rcases hs : splitSlash d.data with _ | ⟨ca, tl⟩
    · exact absurd hs (splitSlash_ne_nil d.data)
    · rw [hs] at hsplit
      rcases tl with _ | ⟨cb, tl2⟩
      · simp at hsplit
      · simp at hsplit
        obtain ⟨ha, hb, hrest⟩ := hsplit
        rcases tl2 with _ | ⟨cc, tl3⟩
        · simp at hrest
          exact absurd hrest hne
        · unfold parse_voucher splitn3
          rw [hs]
          subst ha hb hrest
          rw [map_data_map_mk]
          simp [List.getD]

/-- C3 witness: the amended characterization applied to a well-formed
three-part voucher resolves the trailing component as the local denom. -/
theorem parse_voucher_characterization_witness :
    parse_voucher "transfer/channel-7/uatom" ⟨"transfer", "channel-7"⟩ =
      .ok ⟨"uatom"⟩ :=
  ((parse_voucher_characterization "transfer/channel-7/uatom"
      ⟨"transfer", "channel-7"⟩).2 "transfer" "channel-7" ["uatom"]
      (by decide) (by decide)).trans (by decide)

/-- Concrete fixtures used by witnesses and counterexamples. -/
def envX : Env := ⟨"cosmos2contract"⟩

def srcX : IbcEndpoint := ⟨"transfer", "channel-1234"⟩

def destX : IbcEndpoint := ⟨"wasm-port", "channel-9"⟩

def stateX (bal : Nat) : State :=
  ⟨[(("channel-9", "uatom"), bal)], none, [], [], ⟨7⟩⟩

def packetX (amount : Nat) (action : Option OsmoPacket) : IbcPacket :=
  ⟨some ⟨amount, "transfer/channel-1234/uatom", "remote-sender", "local-rcpt",
    action⟩, srcX, destX⟩

def stateRA : State :=
  ⟨[(("channel-9", "uatom"), 0)],
    some ⟨"channel-9", "uatom", 876543210, "remote-sender"⟩, [], [], ⟨7⟩⟩

/-- The registry contents after a successful connect: the channel
metadata stored under the channel id. -/
def connectState (s : State) (ch : IbcChannel) : State :=
  let info : ChannelInfo :=
    ⟨ch.endpoint.channel_id, ch.counterparty_endpoint, ch.connection_id⟩
  { s with channels := setChannelInfo s.channels info.id info }

/-- C9: channel open and connect fail unless the version equals ics20-1,
the counterparty version (when supplied) equals it too, and the ordering
is unordered; on connect the channel metadata (id, counterparty endpoint,
connection id) is persisted keyed by the channel id; on close a
remote-initiated confirmation is accepted while a local-initiated close
request fails. -/
theorem channel_handshake_and_close (s : State) (ch : IbcChannel)
    (cv : Option String) :
    (ibc_channel_open ch cv = .ok () ↔
      ch.version = ICS20_VERSION ∧ (∀ v, cv = some v → v = ICS20_VERSION) ∧
        ch.order = ICS20_ORDERING) ∧
    (ibc_channel_open ch cv = .ok () →
      ibc_channel_connect s ch cv = .ok (connectState s ch, ⟨[], []⟩)) ∧
    ibc_channel_close (.closeConfirm ch) = .ok ⟨[], []⟩ ∧
    ibc_channel_close (.closeInit ch) = .error .CannotClose := by
  refine ⟨?_, ?_, rfl, rfl⟩
  · unfold ibc_channel_open enforce_order_and_version
    rcases cv with _ | v
    · by_cases h1 : ch.version = ICS20_VERSION <;>
        by_cases h2 : ch.order = ICS20_ORDERING <;> simp [h1, h2]
    · by_cases h1 : ch.version = ICS20_VERSION <;>
        by_cases h2 : ch.order = ICS20_ORDERING <;>
        by_cases h3 : v = ICS20_VERSION <;> simp [h1, h2, h3]
  · intro hopen
    unfold ibc_channel_open at hopen
    unfold ibc_channel_connect connectState
    rw [hopen]

/-- C9 witness: a compliant ics20-1 unordered channel passes the open
guard and its metadata is persisted on connect. -/
theorem channel_handshake_and_close_witness :
    ibc_channel_connect (stateX 0)
        ⟨destX, srcX, .unordered, "ics20-1", "connection-0"⟩
        (some "ics20-1") =
      .ok (connectState (stateX 0)
            ⟨destX, srcX, .unordered, "ics20-1", "connection-0"⟩,
           ⟨[], []⟩) :=
  (channel_handshake_and_close (stateX 0)
(⟨destX, srcX, .unordered, "ics20-1", "connection-0"⟩ : IbcChannel)
      (some "ics20-1")).2.1 (by decide)

/-- C8: the timeout handler coincides with the acknowledgement handler
receiving an `Error` outcome with the literal reason string "timeout";
for any error message the two produce the same state change and the same
settlement payout nested call, differing only in the final error
attribute of the emitted failure event. -/
theorem timeout_equals_ack_error (s : State) (p : IbcPacket) (msg : String) :
    ibc_packet_timeout s p = ibc_packet_ack s ⟨some (.Error "timeout"), p⟩ ∧
    (ibc_packet_ack s ⟨some (.Error msg), p⟩).map
        (fun r => (r.1, r.2.messages, r.2.attributes.dropLast)) =
      (ibc_packet_timeout s p).map
        (fun r => (r.1, r.2.messages, r.2.attributes.dropLast)) ∧
    (ibc_packet_ack s ⟨some (.Error msg), p⟩).map
        (fun r => r.2.attributes.getLast?) =
      (ibc_packet_timeout s p).map (fun _ => some ("error", msg)) := by
  refine ⟨rfl, ?_, ?_⟩ <;>
    · simp only [ibc_packet_ack, ibc_packet_timeout, on_packet_failure]
      rcases hd : p.data with _ | m
      · rfl
      · rcases hr : reduce_channel_balance s p.src.channel_id m.denom m.amount
          with e | s1 <;> simp only [hr] <;> rfl

/-- C4: for swap / join-pool / exit-pool / claim replies, a success
outcome with a decodable {denom, amount} result credits the ledger for
(saved channel, result denom, result amount) and finalizes the
acknowledgement as `Result({denom, amount})`; a failure outcome restores
the original escrow debit recorded in the pending continuation slot and
finalizes the acknowledgement as `Error(message)`. -/
theorem reply_result_bearing_continuations (s : State) (ra : ReplyArgs)
    (h : s.replyArgs = some ra) (out_denom : String) (out_amount : Nat)
    (gamm_tx claim_tx : SubMsgResponse)
    (hg : gamm_tx.gamm = some ⟨out_denom, out_amount⟩)
    (hc : claim_tx.data = some (.execResult (some (.coin out_denom out_amount))))
    (err : String) :
    (∀ id, id = SWAP_ID ∨ id = JOIN_POOL_ID ∨ id = EXIT_POOL_ID →
      reply s ⟨id, .ok gamm_tx⟩ =
        .ok (increase_channel_balance s ra.channel out_denom out_amount,
          ⟨some (.Result (.amountResult out_denom out_amount))⟩)) ∧
    reply s ⟨CLAIM_TOKEN_ID, .ok claim_tx⟩ =
      .ok (increase_channel_balance s ra.channel out_denom out_amount,
        ⟨some (.Result (.amountResult out_denom out_amount))⟩) ∧
    (∀ id, id = SWAP_ID ∨ id = JOIN_POOL_ID ∨ id = EXIT_POOL_ID ∨
        id = CLAIM_TOKEN_ID →
      reply s ⟨id, .err err⟩ =
        .ok (increase_channel_balance s ra.channel ra.denom ra.amount,
          ⟨some (.Error err)⟩)) ∧
    getBal (increase_channel_balance s ra.channel out_denom out_amount).balances
        (ra.channel, out_denom) =
      getBal s.balances (ra.channel, out_denom) + out_amount ∧
    getBal (increase_channel_balance s ra.channel ra.denom ra.amount).balances
        (ra.channel, ra.denom) =
      getBal s.balances (ra.channel, ra.denom) + ra.amount := by
  refine ⟨?_, ?_, ?_, getBal_increase s ra.channel out_denom out_amount,
    getBal_increase s ra.channel ra.denom ra.amount⟩
  · rintro id (rfl | rfl | rfl) <;>
      simp [reply, reply_gamm_result, parse_gamm_result, hg, h,
        RECEIVE_ID, SWAP_ID, JOIN_POOL_ID, EXIT_POOL_ID,
        ack_success_with_body]
  · simp [reply, reply_claim_result, parse_execute_response_data, hc, h,
      RECEIVE_ID, SWAP_ID, JOIN_POOL_ID, EXIT_POOL_ID, LOCKUP_ID,
      LOCK_TOKEN_ID, CLAIM_TOKEN_ID, ack_success_with_body]
  · rintro id (rfl | rfl | rfl | rfl) <;>
      simp [reply, reply_gamm_result, reply_claim_result,
        restore_balance_reply, h, RECEIVE_ID, SWAP_ID, JOIN_POOL_ID,
        EXIT_POOL_ID, LOCKUP_ID, LOCK_TOKEN_ID, CLAIM_TOKEN_ID, ack_fail]

/-- C4 witness: the swap scenario of the spec — a swap reply carrying
the pair uosmo / 36601070 credits the uosmo balance of the channel and finalizes
`Result({uosmo, 36601070})`. -/
theorem reply_result_bearing_continuations_witness :
    reply stateRA ⟨SWAP_ID, .ok ⟨some ⟨"uosmo", 36601070⟩, none⟩⟩ =
      .ok (increase_channel_balance stateRA "channel-9" "uosmo" 36601070,
        ⟨some (.Result (.amountResult "uosmo" 36601070))⟩) :=
  (reply_result_bearing_continuations stateRA
      ⟨"channel-9", "uatom", 876543210, "remote-sender"⟩ rfl "uosmo" 36601070
      ⟨some ⟨"uosmo", 36601070⟩, none⟩
      ⟨none, some (.execResult (some (.coin "uosmo" 36601070)))⟩
      rfl rfl "err").1 SWAP_ID (Or.inl rfl)

/-- C5 counterexample: a failure reply on the failure-settlement-payout
continuation (ACK_FAILURE_ID) only overwrites the acknowledgement data;
the ledger is untouched although the pending slot records a debit of
876543210 uatom and the balance sits at 0 — contradicting the claim that
this continuation restores the escrow debit on failure. -/
theorem ack_failure_reply_does_not_restore :
    reply stateRA ⟨ACK_FAILURE_ID, .err "boom"⟩ =
      .ok (stateRA, ⟨some (.Error "boom")⟩) ∧
    getBal stateRA.balances ("channel-9", "uatom") = 0 ∧
    stateRA.replyArgs =
      some ⟨"channel-9", "uatom", 876543210, "remote-sender"⟩ := by
  exact ⟨rfl, rfl, rfl⟩

/-- C5 (amended): for the unlock-token, plain-receive and
failure-settlement-payout continuations, a success outcome makes no
state change and leaves the finalized acknowledgement untouched; on a
failure outcome all three overwrite the acknowledgement data with
`Error(message)`, but only the plain-receive continuation restores the
escrow debit — the failure-settlement-payout (and unlock) handlers never
touch storage. -/
theorem notify_on_error_continuations (s : State) (ra : ReplyArgs)
    (h : s.replyArgs = some ra) (tx : SubMsgResponse) (err : String) :
    (∀ id, id = UNLOCK_TOKEN_ID ∨ id = RECEIVE_ID ∨ id = ACK_FAILURE_ID →
      reply s ⟨id, .ok tx⟩ = .ok (s, ⟨none⟩)) ∧
    reply s ⟨RECEIVE_ID, .err err⟩ =
      .ok (increase_channel_balance s ra.channel ra.denom ra.amount,
        ⟨some (.Error err)⟩) ∧
    reply s ⟨UNLOCK_TOKEN_ID, .err err⟩ = .ok (s, ⟨some (.Error err)⟩) ∧
    reply s ⟨ACK_FAILURE_ID, .err err⟩ = .ok (s, ⟨some (.Error err)⟩) ∧
    getBal (increase_channel_balance s ra.channel ra.denom ra.amount).balances
        (ra.channel, ra.denom) =
      getBal s.balances (ra.channel, ra.denom) + ra.amount := by
  refine ⟨?_, ?_, ?_, ?_, getBal_increase s ra.channel ra.denom ra.amount⟩
  · rintro id (rfl | rfl | rfl) <;>
      simp [reply, reply_receive, reply_ack_on_error, Except.map, RECEIVE_ID,
        SWAP_ID, JOIN_POOL_ID, EXIT_POOL_ID, LOCKUP_ID, LOCK_TOKEN_ID,
        CLAIM_TOKEN_ID, UNLOCK_TOKEN_ID, ACK_FAILURE_ID]
  · simp [reply, reply_receive, restore_balance_reply, h, RECEIVE_ID,
      ack_fail]
  · simp [reply, reply_ack_on_error, Except.map, RECEIVE_ID, SWAP_ID,
      JOIN_POOL_ID, EXIT_POOL_ID, LOCKUP_ID, LOCK_TOKEN_ID, CLAIM_TOKEN_ID,
      UNLOCK_TOKEN_ID, ack_fail]
  · simp [reply, reply_ack_on_error, Except.map, RECEIVE_ID, SWAP_ID,
      JOIN_POOL_ID, EXIT_POOL_ID, LOCKUP_ID, LOCK_TOKEN_ID, CLAIM_TOKEN_ID,
      UNLOCK_TOKEN_ID, ACK_FAILURE_ID, ack_fail]

/-- C5 witness: a failed plain-receive payout restores the debit recorded
in the pending slot and rewrites the acknowledgement to an error. -/
theorem notify_on_error_continuations_witness :
    reply stateRA ⟨RECEIVE_ID, .err "boom"⟩ =
      .ok (increase_channel_balance stateRA "channel-9" "uatom" 876543210,
        ⟨some (.Error "boom")⟩) :=
  (notify_on_error_continuations stateRA
      ⟨"channel-9", "uatom", 876543210, "remote-sender"⟩ rfl ⟨none, none⟩
      "boom").2.1

/-- C10: a lock-token or claim-token success whose response carries no
data payload — or a claim payload that does not decode as a coin —
aborts the whole invocation with a fatal error and produces no
acknowledgement; by contrast a swap / join-pool / exit-pool success
whose output cannot be parsed is recoverable: the escrow debit is
restored and the acknowledgement finalized as `Error(message)`. -/
theorem reply_missing_data_fatal_vs_recoverable (s : State) (ra : ReplyArgs)
    (h : s.replyArgs = some ra) (nodata_tx noparse_tx raw_tx : SubMsgResponse)
    (hnd : nodata_tx.data = none) (hg : noparse_tx.gamm = none) (tag : Nat)
    (hraw : raw_tx.data = some (.execResult (some (.raw tag)))) :
    reply s ⟨LOCK_TOKEN_ID, .ok nodata_tx⟩ = .error .MissingReplyData ∧
    reply s ⟨CLAIM_TOKEN_ID, .ok nodata_tx⟩ = .error .MissingReplyData ∧
    reply s ⟨CLAIM_TOKEN_ID, .ok raw_tx⟩ =
      .error (.DecodeFail "expected coin in claim reply data") ∧
    (∀ id, id = SWAP_ID ∨ id = JOIN_POOL_ID ∨ id = EXIT_POOL_ID →
      reply s ⟨id, .ok noparse_tx⟩ =
        .ok (increase_channel_balance s ra.channel ra.denom ra.amount,
          ⟨some (.Error (ContractError.GammParseErr
            "no gamm event found").toMsg)⟩)) ∧
    getBal (increase_channel_balance s ra.channel ra.denom ra.amount).balances
        (ra.channel, ra.denom) =
      getBal s.balances (ra.channel, ra.denom) + ra.amount := by
  refine ⟨?_, ?_, ?_, ?_, getBal_increase s ra.channel ra.denom ra.amount⟩
  · simp [reply, reply_ack_from_data, hnd, RECEIVE_ID, SWAP_ID, JOIN_POOL_ID,
      EXIT_POOL_ID, LOCKUP_ID, LOCK_TOKEN_ID]
  · simp [reply, reply_claim_result, hnd, RECEIVE_ID, SWAP_ID, JOIN_POOL_ID,
      EXIT_POOL_ID, LOCKUP_ID, LOCK_TOKEN_ID, CLAIM_TOKEN_ID]
  · simp [reply, reply_claim_result, parse_execute_response_data, hraw,
      RECEIVE_ID, SWAP_ID, JOIN_POOL_ID, EXIT_POOL_ID, LOCKUP_ID,
      LOCK_TOKEN_ID, CLAIM_TOKEN_ID]
  · rintro id (rfl | rfl | rfl) <;>
      simp [reply, reply_gamm_result, parse_gamm_result, hg,
        restore_balance_reply, h, RECEIVE_ID, SWAP_ID, JOIN_POOL_ID,
        EXIT_POOL_ID, ack_fail, ContractError.toMsg]

/-- C10 witness: a join-pool success whose events carry no decodable
result restores the debit and finalizes an error acknowledgement, while
a lock-token success without data aborts fatally. -/
theorem reply_missing_data_fatal_vs_recoverable_witness :
    reply stateRA ⟨LOCK_TOKEN_ID, .ok ⟨none, none⟩⟩ =
        .error .MissingReplyData ∧
    reply stateRA ⟨JOIN_POOL_ID, .ok ⟨none, none⟩⟩ =
      .ok (increase_channel_balance stateRA "channel-9" "uatom" 876543210,
        ⟨some (.Error (ContractError.GammParseErr
          "no gamm event found").toMsg)⟩) := by
  have hth := reply_missing_data_fatal_vs_recoverable stateRA
    ⟨"channel-9", "uatom", 876543210, "remote-sender"⟩ rfl ⟨none, none⟩
    ⟨none, none⟩ ⟨none, some (.execResult (some (.raw 0)))⟩ rfl rfl 0 rfl
  exact ⟨hth.1, hth.2.2.2.1 JOIN_POOL_ID (Or.inr (Or.inl rfl))⟩

/-- C2 counterexample: a Claim action packet carrying 5 uatom (balance 5)
passes the debit, then fails NonPayable; the receive handler converts the
error into an `Error` acknowledgement but never credits the debit back —
the final balance is 0, not the pre-debit 5, so the debit of this failure
branch has no matching restoration. -/
theorem stranded_debit_on_nonpayable :
    (ibc_packet_receive (stateX 5) envX
        (packetX 5 (some (.Claim ⟨"uosmo"⟩)))).2.ack =
      some (.Error ContractError.NonPayable.toMsg) ∧
    (ibc_packet_receive (stateX 5) envX
        (packetX 5 (some (.Claim ⟨"uosmo"⟩)))).2.messages = [] ∧
    getBal (ibc_packet_receive (stateX 5) envX
        (packetX 5 (some (.Claim ⟨"uosmo"⟩)))).1.balances
      ("channel-9", "uatom") = 0 ∧
    getBal (stateX 5).balances ("channel-9", "uatom") = 5 :=
  ⟨rfl, rfl, rfl, rfl⟩

/-- C2 (amended): the restoration guarantee holds exactly on the
reply-settled failure branches — whenever a reply invocation finalizes an
`Error` acknowledgement for the plain-receive, swap, join-pool,
exit-pool, lock-token or claim-token continuation, the (channel, denom)
balance debited for that packet is credited back to its pre-debit value;
receive-time failures raised after the debit (such as NonPayable or a
missing lockup binding on a nonzero action packet) and settlement-payout
failures leave the debit unrestored. -/
theorem escrow_restored_on_reply_failure (s : State) (ra : ReplyArgs)
    (h : s.replyArgs = some ra) (err : String) :
    (∀ id, id = RECEIVE_ID ∨ id = SWAP_ID ∨ id = JOIN_POOL_ID ∨
        id = EXIT_POOL_ID ∨ id = LOCK_TOKEN_ID ∨ id = CLAIM_TOKEN_ID →
      reply s ⟨id, .err err⟩ =
        .ok (increase_channel_balance s ra.channel ra.denom ra.amount,
          ⟨some (.Error err)⟩)) ∧
    getBal (increase_channel_balance s ra.channel ra.denom ra.amount).balances
        (ra.channel, ra.denom) =
      getBal s.balances (ra.channel, ra.denom) + ra.amount := by
  refine ⟨?_, getBal_increase s ra.channel ra.denom ra.amount⟩
  rintro id (rfl | rfl | rfl | rfl | rfl | rfl) <;>
    simp [reply, reply_receive, reply_gamm_result, reply_ack_from_data,
      reply_claim_result, restore_balance_reply, h, RECEIVE_ID, SWAP_ID,
      JOIN_POOL_ID, EXIT_POOL_ID, LOCKUP_ID, LOCK_TOKEN_ID, CLAIM_TOKEN_ID,
      ack_fail]

/-- C2 witness: a failed lock-token nested call restores the debit
recorded in the pending continuation slot. -/
theorem escrow_restored_on_reply_failure_witness :
    reply stateRA ⟨LOCK_TOKEN_ID, .err "fail"⟩ =
      .ok (increase_channel_balance stateRA "channel-9" "uatom" 876543210,
        ⟨some (.Error "fail")⟩) :=
  (escrow_restored_on_reply_failure stateRA
      ⟨"channel-9", "uatom", 876543210, "remote-sender"⟩ rfl "fail").1
    LOCK_TOKEN_ID (Or.inr (Or.inr (Or.inr (Or.inr (Or.inl rfl)))))

/-- The post-debit state of a plain receive: balance reduced and the
pending continuation slot holding the packet context. -/
def receiveDebited (s : State) (ch d : String) (amount : Nat)
    (sender : String) : State :=
  let bal := getBal s.balances (ch, d)
  { s with balances := setBal s.balances (ch, d) (bal - amount),
           replyArgs := some ⟨ch, d, amount, sender⟩ }

/-- C6: a no-action transfer with a valid voucher — with insufficient
(channel, denom) balance the acknowledgement is the InsufficientFunds
`Error`, no nested call is issued and the state is untouched; with
sufficient balance the balance drops by exactly the amount, exactly one
payout to the receiver is dispatched under the plain-receive
continuation id with notify-on-failure-only policy, the acknowledgement
is the optimistic `Result`, and a success reply changes neither the
acknowledgement nor the balance. -/
theorem plain_receive_flow (s : State) (env : Env) (src dest : IbcEndpoint)
    (vd d sender receiver : String) (amount : Nat)
    (hv : parse_voucher vd src = .ok ⟨d⟩) :
    (getBal s.balances (dest.channel_id, d) < amount →
      ibc_packet_receive s env
          ⟨some ⟨amount, vd, sender, receiver, none⟩, src, dest⟩ =
        (s, ⟨some (.Error ContractError.InsufficientFunds.toMsg), [],
          [("action", "receive"), ("success", "false"),
            ("error", ContractError.InsufficientFunds.toMsg)]⟩)) ∧
    (amount ≤ getBal s.balances (dest.channel_id, d) →
      ibc_packet_receive s env
          ⟨some ⟨amount, vd, sender, receiver, none⟩, src, dest⟩ =
        (receiveDebited s dest.channel_id d amount sender,
          ⟨some ack_success,
            [⟨RECEIVE_ID, .onError, .bankSend receiver d amount⟩],
            [("action", "receive"), ("sender", sender),
              ("receiver", receiver), ("denom", d),
              ("amount", toString amount), ("success", "true")]⟩) ∧
      getBal (receiveDebited s dest.channel_id d amount sender).balances
          (dest.channel_id, d) =
        getBal s.balances (dest.channel_id, d) - amount ∧
      ∀ tx, reply (receiveDebited s dest.channel_id d amount sender)
          ⟨RECEIVE_ID, .ok tx⟩ =
        .ok (receiveDebited s dest.channel_id d amount sender, ⟨none⟩)) := by
  constructor
  · intro hlow
    simp only [ibc_packet_receive, do_ibc_packet_receive, hv,
      reduce_channel_balance]
    rw [if_pos hlow]
    rfl
  · intro hhigh
    refine ⟨?_, ?_, ?_⟩
    · simp only [ibc_packet_receive, do_ibc_packet_receive, hv,
        reduce_channel_balance]
      rw [if_neg (Nat.not_lt.mpr hhigh)]
      rfl
    · simp [receiveDebited, getBal_setBal_self]
    · intro tx
      simp [reply, reply_receive, RECEIVE_ID]

/-- C6 witness: the two scenarios of the spec — receiving 1876543210 uatom on
a zero balance yields the insufficient-funds error acknowledgement, and
receiving 876543210 uatom on a 987654321 balance leaves 111111111. -/
theorem plain_receive_flow_witness :
    (ibc_packet_receive (stateX 0) envX
        ⟨some ⟨1876543210, "transfer/channel-1234/uatom", "remote-sender",
          "local-rcpt", none⟩, srcX, destX⟩).2.ack =
      some (.Error "insufficient funds") ∧
    getBal (ibc_packet_receive (stateX 987654321) envX
        ⟨some ⟨876543210, "transfer/channel-1234/uatom", "remote-sender",
          "local-rcpt", none⟩, srcX, destX⟩).1.balances
      ("channel-9", "uatom") = 111111111 := by
  constructor
  · have h1 := (plain_receive_flow (stateX 0) envX srcX destX
      "transfer/channel-1234/uatom" "uatom" "remote-sender" "local-rcpt"
      1876543210 (by decide)).1 (by decide)
    rw [h1]
    rfl
  · have h2 := (plain_receive_flow (stateX 987654321) envX srcX destX
      "transfer/channel-1234/uatom" "uatom" "remote-sender" "local-rcpt"
      876543210 (by decide)).2 (by decide)
    rw [h2.1]
    exact h2.2.1.trans (by decide)

/-- A transfer packet carrying an embedded action. -/
def actionPacket (vd sender receiver : String) (amount : Nat)
    (act : OsmoPacket) (src dest : IbcEndpoint) : IbcPacket :=
  ⟨some ⟨amount, vd, sender, receiver, some act⟩, src, dest⟩

/-- Fixture with an existing lockup binding for (channel-9,
remote-sender). -/
def stateLock : State :=
  ⟨[(("channel-9", "uatom"), 54321)], none,
    [(("channel-9", "remote-sender"), "lockup-addr")], [], ⟨7⟩⟩

/-- C7 counterexample: an Unlock action carrying a nonzero amount is
rejected with NonPayable — no nested call is issued — even though a
binding exists for (channel, sender) and the escrow debit succeeded; the
claim instead requires such a packet to either fail with LockupNotFound
(it cannot; a binding exists) or issue exactly one nested call. -/
theorem nonzero_unlock_rejected_nonpayable :
    (do_ibc_packet_receive stateLock envX
        (packetX 1 (some (.Unlock ⟨1⟩)))).2 = .error .NonPayable ∧
    (ibc_packet_receive stateLock envX
        (packetX 1 (some (.Unlock ⟨1⟩)))).2.messages = [] ∧
    getLockup stateLock.lockup ("channel-9", "remote-sender") =
      some "lockup-addr" :=
  ⟨rfl, rfl, rfl⟩

/-- C7 (amended): with a valid voucher and a sufficient balance — a
CreateLockupAccount action fails NonPayable when the transfer carries a
nonzero amount, and (when zero-valued) fails OnlyLockupByChannel before
issuing any nested call if a binding exists, else dispatches one
sub-account instantiation under the lockup-create id; Lock fails
LockupNotFound without a binding, else dispatches one always-notify call
to the bound sub-account under the lock-token id forwarding the escrowed
funds; Claim and Unlock first require a zero amount (else NonPayable),
then fail LockupNotFound without a binding, else dispatch exactly one
call to the bound sub-account under the claim-token id (always-notify)
resp. the unlock-token id (notify-on-failure-only); every failing branch
issues no nested call. -/
theorem lockup_action_dispatch (s : State) (env : Env) (src dest : IbcEndpoint)
    (vd d sender receiver : String) (amount : Nat)
    (hv : parse_voucher vd src = .ok ⟨d⟩)
    (hbal : amount ≤ getBal s.balances (dest.channel_id, d)) :
    (amount ≠ 0 →
      (do_ibc_packet_receive s env
          (actionPacket vd sender receiver amount .LockupAccount src dest)).2 =
        .error .NonPayable) ∧
    (amount = 0 → ∀ addr,
      getLockup s.lockup (dest.channel_id, sender) = some addr →
      (do_ibc_packet_receive s env
          (actionPacket vd sender receiver amount .LockupAccount src dest)).2 =
        .error .OnlyLockupByChannel) ∧
    (amount = 0 → getLockup s.lockup (dest.channel_id, sender) = none →
      ∃ r, (do_ibc_packet_receive s env
          (actionPacket vd sender receiver amount .LockupAccount src dest)).2 =
        .ok r ∧
        r.messages = [⟨LOCKUP_ID, .always, .wasmInstantiate s.config.lockup_id
          env.contract_address ("Lockup " ++ dest.channel_id)⟩]) ∧
    (∀ dur, getLockup s.lockup (dest.channel_id, sender) = none →
      (do_ibc_packet_receive s env
          (actionPacket vd sender receiver amount (.Lock ⟨dur⟩) src dest)).2 =
        .error .LockupNotFound) ∧
    (∀ dur addr, getLockup s.lockup (dest.channel_id, sender) = some addr →
      ∃ r, (do_ibc_packet_receive s env
          (actionPacket vd sender receiver amount (.Lock ⟨dur⟩) src dest)).2 =
        .ok r ∧
        r.messages =
          [⟨LOCK_TOKEN_ID, .always, .wasmExec addr (.lock dur) [(amount, d)]⟩]) ∧
    (∀ cd, amount ≠ 0 →
      (do_ibc_packet_receive s env
          (actionPacket vd sender receiver amount (.Claim ⟨cd⟩) src dest)).2 =
        .error .NonPayable) ∧
    (∀ cd, amount = 0 → getLockup s.lockup (dest.channel_id, sender) = none →
      (do_ibc_packet_receive s env
          (actionPacket vd sender receiver amount (.Claim ⟨cd⟩) src dest)).2 =
        .error .LockupNotFound) ∧
    (∀ cd addr, amount = 0 →
      getLockup s.lockup (dest.channel_id, sender) = some addr →
      ∃ r, (do_ibc_packet_receive s env
          (actionPacket vd sender receiver amount (.Claim ⟨cd⟩) src dest)).2 =
        .ok r ∧
        r.messages = [⟨CLAIM_TOKEN_ID, .always, .wasmExec addr (.claim cd) []⟩]) ∧
    (∀ uid, amount ≠ 0 →
      (do_ibc_packet_receive s env
          (actionPacket vd sender receiver amount (.Unlock ⟨uid⟩) src dest)).2 =
        .error .NonPayable) ∧
    (∀ uid, amount = 0 → getLockup s.lockup (dest.channel_id, sender) = none →
      (do_ibc_packet_receive s env
          (actionPacket vd sender receiver amount (.Unlock ⟨uid⟩) src dest)).2 =
        .error .LockupNotFound) ∧
    (∀ uid addr, amount = 0 →
      getLockup s.lockup (dest.channel_id, sender) = some addr →
      ∃ r, (do_ibc_packet_receive s env
          (actionPacket vd sender receiver amount (.Unlock ⟨uid⟩) src dest)).2 =
        .ok r ∧
        r.messages =
          [⟨UNLOCK_TOKEN_ID, .onError, .wasmExec addr (.unlock uid) []⟩]) ∧
    (∀ p, ((do_ibc_packet_receive s env p).2.isOk = false →
      (ibc_packet_receive s env p).2.messages = [])) := by
  have hred : reduce_channel_balance s dest.channel_id d amount =
      .ok { s with balances := setBal s.balances (dest.channel_id, d) (getBal s.balances (dest.channel_id, d) - amount) } := by
    unfold reduce_channel_balance
    rw [if_neg (Nat.not_lt.mpr hbal)]
  refine ⟨?_, ?_, ?_, ?_, ?_, ?_, ?_, ?_, ?_, ?_, ?_, ?_⟩
  · intro hne
    simp [do_ibc_packet_receive, actionPacket, hv, hred, nonpayable,
      Amount.from_parts, Amount.is_empty, hne]
  · intro hz addr hlk
    subst hz
    simp [do_ibc_packet_receive, actionPacket, hv, hred, nonpayable,
      Amount.from_parts, Amount.is_empty, receive_create_lockup, hlk]
  · intro hz hlk
    subst hz
    simp only [do_ibc_packet_receive, actionPacket, hv, hred, nonpayable,
      Amount.from_parts, Amount.is_empty, receive_create_lockup]
    simp [hlk, SubMsgM.reply_always]
  · intro dur hlk
    simp [do_ibc_packet_receive, actionPacket, hv, hred,
      receive_lock_tokens, hlk]
  · intro dur addr hlk
    simp only [do_ibc_packet_receive, actionPacket, hv, hred,
      receive_lock_tokens]
    simp [hlk, create_lockup_msg, SubMsgM.reply_always, Amount.from_parts]
  · intro cd hne
    simp [do_ibc_packet_receive, actionPacket, hv, hred, nonpayable,
      Amount.from_parts, Amount.is_empty, hne]
  · intro cd hz hlk
    subst hz
    simp [do_ibc_packet_receive, actionPacket, hv, hred, nonpayable,
      Amount.from_parts, Amount.is_empty, receive_claim_tokens, hlk]
  · intro cd addr hz hlk
    subst hz
    simp only [do_ibc_packet_receive, actionPacket, hv, hred, nonpayable,
      Amount.from_parts, Amount.is_empty, receive_claim_tokens]
    simp [hlk, create_lockup_msg, SubMsgM.reply_always]
  · intro uid hne
    simp [do_ibc_packet_receive, actionPacket, hv, hred, nonpayable,
      Amount.from_parts, Amount.is_empty, hne]
  · intro uid hz hlk
    subst hz
    simp [do_ibc_packet_receive, actionPacket, hv, hred, nonpayable,
      Amount.from_parts, Amount.is_empty, receive_unlock_tokens, hlk]
  · intro uid addr hz hlk
    subst hz
    simp only [do_ibc_packet_receive, actionPacket, hv, hred, nonpayable,
      Amount.from_parts, Amount.is_empty, receive_unlock_tokens]
    simp [hlk, create_lockup_msg, SubMsgM.reply_on_error]
  · intro p herr
    unfold ibc_packet_receive
    rcases hdo : do_ibc_packet_receive s env p with ⟨s1, res⟩
    cases res with
    | ok r => rw [hdo] at herr; simp [Except.isOk, Except.toBool] at herr
    | error e => rfl

/-- C7 witness: with a binding present, a Lock action forwards the
escrowed 54321 uatom to the bound sub-account in exactly one
always-notify nested call under the lock-token id. -/
theorem lockup_action_dispatch_witness :
    ∃ r, (do_ibc_packet_receive stateLock envX
        (actionPacket "transfer/channel-1234/uatom" "remote-sender"
          "local-rcpt" 54321 (.Lock ⟨86400⟩) srcX destX)).2 = .ok r ∧
      r.messages = [⟨LOCK_TOKEN_ID, .always,
        .wasmExec "lockup-addr" (.lock 86400) [(54321, "uatom")]⟩] :=
  (lockup_action_dispatch stateLock envX srcX destX
      "transfer/channel-1234/uatom" "uatom" "remote-sender" "local-rcpt"
      54321 (by decide) (by decide)).2.2.2.2.1 86400 "lockup-addr" (by decide)

end CwOsmo
